import Mathlib

/-!
# Verification of piglit's scheduling and result-interpretation engine

This file gives a shallow embedding, in Lean 4, of the core of the piglit
test harness as found in the repository sources:

* `framework/profile.py` — the `TestDict` ordered case-folding mapping,
  `TestProfile.filter`, and the `Collection.run` dispatch loop;
* `framework/test/deqp.py` — the dEQP single-case and group-mode output
  interpreters and the X-display retry loop;
* `framework/test/shader_test.py` — the multi-file shader-test stop-status
  classification.

Python strings become Lean `String`s, Python exceptions become `Except`
results, Python dicts with ordered insertion become association lists, and
the side-effecting scheduler becomes a function producing an explicit trace
of events.  Theorems at the bottom of the file settle the specification
claims against these definitions.
-/

namespace Piglit

/-- The result severities used by the claims (a subset of piglit's
`framework.status` enumeration; only members that the embedded code can
produce are needed). -/
inductive Status where
  | pass
  | skip
  | warn
  | fail
  | crash
  | timeout
  | notrun
  | incomplete
  deriving DecidableEq, Repr

/-- Exceptions raised by the embedded code, mirroring
`framework.exceptions.PiglitFatalError`, `PiglitInternalError`,
`framework.test.base.TestRunError`, Python's builtin `KeyError` /
`IndexError` / `StopIteration` / `AssertionError`. -/
inductive PErr where
  | fatal (msg : String)
  | internal (msg : String)
  | testRunError (msg : String) (st : String)
  | keyError (msg : String)
  | indexError
  | stopIteration
  | assertionError (msg : String)
  deriving DecidableEq, Repr

/-! ## Python string primitives

The embedded code uses `str.lower`, `str.rstrip`, `str.split('\n')`,
`str.startswith`, `str.endswith`, slicing, and the `in` substring test.
These are modelled here.  `lower`/`upper` are modelled as the ASCII case
maps (piglit's test names are ASCII). -/

/-- ASCII lower-casing of one character (models Python `str.lower` on the
character range the repository uses). -/
def pyCharLower (c : Char) : Char :=
  match c with
  | 'A' => 'a' | 'B' => 'b' | 'C' => 'c' | 'D' => 'd' | 'E' => 'e'
  | 'F' => 'f' | 'G' => 'g' | 'H' => 'h' | 'I' => 'i' | 'J' => 'j'
  | 'K' => 'k' | 'L' => 'l' | 'M' => 'm' | 'N' => 'n' | 'O' => 'o'
  | 'P' => 'p' | 'Q' => 'q' | 'R' => 'r' | 'S' => 's' | 'T' => 't'
  | 'U' => 'u' | 'V' => 'v' | 'W' => 'w' | 'X' => 'x' | 'Y' => 'y'
  | 'Z' => 'z'
  | _ => c

/-- ASCII upper-casing of one character (models Python `str.upper`). -/
def pyCharUpper (c : Char) : Char :=
  match c with
  | 'a' => 'A' | 'b' => 'B' | 'c' => 'C' | 'd' => 'D' | 'e' => 'E'
  | 'f' => 'F' | 'g' => 'G' | 'h' => 'H' | 'i' => 'I' | 'j' => 'J'
  | 'k' => 'K' | 'l' => 'L' | 'm' => 'M' | 'n' => 'N' | 'o' => 'O'
  | 'p' => 'P' | 'q' => 'Q' | 'r' => 'R' | 's' => 'S' | 't' => 'T'
  | 'u' => 'U' | 'v' => 'V' | 'w' => 'W' | 'x' => 'X' | 'y' => 'Y'
  | 'z' => 'Z'
  | _ => c

/-- Python `str.lower()` (ASCII model). -/
def pyLower (s : String) : String := ⟨s.data.map pyCharLower⟩

/-- Python `str.upper()` (ASCII model). -/
def pyUpper (s : String) : String := ⟨s.data.map pyCharUpper⟩

/-- The characters Python's `str.rstrip()` removes by default. -/
def pyIsSpace (c : Char) : Bool :=
  c = ' ' ∨ c = '\t' ∨ c = '\n' ∨ c = '\r' ∨ c = '\x0b' ∨ c = '\x0c'

/-- Python `str.rstrip()`. -/
def pyRstrip (s : String) : String := ⟨(s.data.reverse.dropWhile pyIsSpace).reverse⟩

/-- Python `str.startswith(pre)`. -/
def pyStartsWith (s pre : String) : Bool := pre.data.isPrefixOf s.data

/-- Python `str.endswith(suf)`. -/
def pyEndsWith (s suf : String) : Bool :=
  suf.data.reverse.isPrefixOf s.data.reverse

/-- Splitting a character list at every newline. -/
def splitLinesChars : List Char → List (List Char)
  | [] => [[]]
  | c :: cs =>
    match splitLinesChars cs with
    | [] => [[]]
    | h :: t => if c = '\n' then [] :: h :: t else (c :: h) :: t

/-- Python `str.split('\n')`. -/
def pySplitLines (s : String) : List String :=
  (splitLinesChars s.data).map (fun cs => ⟨cs⟩)

/-- Python list slicing `xs[a:]`, for a non-negative index. -/
def pySliceFrom (xs : List α) (a : Nat) : List α := xs.drop a

/-- Python list slicing `xs[:-b]`, for a positive `b`. -/
def pySliceToNeg (xs : List α) (b : Nat) : List α := xs.take (xs.length - b)

/-- Substring containment, Python's `needle in hay` on strings. -/
def pyContains (hay needle : String) : Bool :=
  (List.range (hay.length + 1)).any fun i =>
    needle.data.isPrefixOf (hay.data.drop i)

/-! ## `framework.test.base.Test` values

Only the fields the embedded code inspects are kept: the argv `command`
and the `run_concurrent` flag (`framework/test/base.py` is not under the
sources provided; these two fields are the ones `profile.py` reads). -/

/-- A test case: the command line and the concurrency opt-in flag. -/
structure TestT where
  command : List String
  runConcurrent : Bool
  deriving DecidableEq, Repr, Inhabited

/-! ## `framework.profile.TestDict`

`TestDict` (profile.py lines 130-333) is an ordered mapping that lowers
keys on every access and refuses duplicate insertion unless the
re-entrant `allow_reassignment` context manager is active.  The
`OrderedDict` container becomes an association list in insertion order;
`__allow_reassignment` is the same `Nat` counter. -/

/-- Assignment into a Python (ordered) dict: an existing key keeps its
position and gets the new value, a new key is appended. -/
def odAssign {α : Type} (container : List (String × α)) (key : String)
    (value : α) : List (String × α) :=
  match container with
  | [] => [(key, value)]
  | (k, v) :: rest =>
    if k = key then (k, value) :: rest
    else (k, v) :: odAssign rest key value

/-- Lookup in a Python dict (raises `KeyError` when absent). -/
def odLookup {α : Type} (container : List (String × α)) (key : String) :
    Except PErr α :=
  match container with
  | [] => .error (.keyError key)
  | (k, v) :: rest => if k = key then .ok v else odLookup rest key

/-- Embedding of `framework.profile.TestDict`: the insertion-ordered container plus the
`allow_reassignment` nesting counter. -/
structure TestDict where
  allowReassignment : Nat
  container : List (String × TestT)
  deriving DecidableEq, Repr

namespace TestDict

/-- A freshly constructed `TestDict` (profile.py `__init__`). -/
def empty : TestDict := ⟨0, []⟩

/-- Embedding of `TestDict.__setitem__` (profile.py lines 151-196).  The key is lowered
first; if reassignment is not allowed and the (lowered) key is present,
a `PiglitFatalError` is raised whether or not the stored test equals the
new one (only the message differs). -/
def setItem (d : TestDict) (key : String) (value : TestT) :
    Except PErr TestDict :=
  let key := pyLower key
  if d.allowReassignment = 0 ∧ (d.container.lookup key).isSome then
    let error :=
      if (d.container.lookup key).get! ≠ value then
        "Further, the two tests are not the same,\n" ++
        "The original test has this command:   \"" ++
        " ".intercalate ((d.container.lookup key).get!.command) ++ "\"\n" ++
        "The new test has this command:        \"" ++
        " ".intercalate value.command ++ "\""
      else
        "and both tests are the same."
    .error (.fatal ("A test has already been assigned the name: " ++
                    key ++ "\n" ++ error))
  else
    .ok { d with container := odAssign d.container key value }

/-- Embedding of `TestDict.__getitem__` (profile.py lines 198-200): lower, then look up. -/
def getItem (d : TestDict) (key : String) : Except PErr TestT :=
  odLookup d.container (pyLower key)

/-- Entering the `allow_reassignment` context manager (profile.py lines
212-229): the counter is incremented. -/
def enterAllowReassignment (d : TestDict) : TestDict :=
  { d with allowReassignment := d.allowReassignment + 1 }

/-- Leaving the `allow_reassignment` context manager: the counter is
decremented. -/
def exitAllowReassignment (d : TestDict) : TestDict :=
  { d with allowReassignment := d.allowReassignment - 1 }

/-- Embedding of `TestDict.filter` (profile.py lines 231-244): destructively remove
every pair the predicate rejects, preserving order. -/
def filterDict (d : TestDict) (p : String × TestT → Bool) : TestDict :=
  { d with container := d.container.filter p }

/-- One step of `TestDict.reorder`'s loop body: `new[k] = container[k]`,
skipping the name if absent when `allow_missing` holds. -/
def reorderStep (container : List (String × TestT)) (allowMissing : Bool)
    (acc : Except PErr (List (String × TestT))) (k : String) :
    Except PErr (List (String × TestT)) :=
  match acc with
  | .error e => .error e
  | .ok newC =>
    match container.lookup k with
    | some v => .ok (odAssign newC k v)
    | none =>
      if allowMissing then .ok newC
      else .error (.fatal ("Cannot reorder test: \"" ++ k ++
                           "\", it is not in the profile."))

/-- Embedding of `TestDict.reorder` (profile.py lines 246-260): rebuild the container
in the order of the provided name list. -/
def reorder (d : TestDict) (order : List String) (allowMissing : Bool) :
    Except PErr TestDict :=
  match order.foldl (reorderStep d.container allowMissing) (.ok []) with
  | .error e => .error e
  | .ok newC => .ok { d with container := newC }

end TestDict

/-! ## `framework.profile.TestProfile`

The compiled regular expressions of `include_filter` / `exclude_filter`
are embedded as their `search` predicates (`String → Bool`), and the
global `options.OPTIONS.exclude_tests` set as a list of names. -/

/-- The per-run options dictionary built in `TestProfile.__init__`
(profile.py lines 361-367). -/
structure ProfileOptions where
  dmesg : Bool
  monitor : Bool
  concurrency : String
  includeFilter : List (String → Bool)
  excludeFilter : List (String → Bool)

/-- Embedding of `framework.profile.TestProfile` (the fields the embedded operations
read). -/
structure TestProfile where
  testList : TestDict
  forcedTestList : List String
  filters : List (String → TestT → Bool)
  options : ProfileOptions

/-- The helper `matches_any_regexp` from `TestProfile.filter` (profile.py lines
377-378). -/
def matchesAnyRegexp (x : String) (reList : List (String → Bool)) : Bool :=
  reList.any (fun r => r x)

/-- The built-in predicate `test_matches` from `TestProfile.filter` (profile.py lines 381-387):
the built-in include-regex / global-exclude-set / exclude-regex predicate. -/
def testMatches (opts : ProfileOptions) (excludeTests : List String)
    (path : String) : Bool :=
  (opts.includeFilter.isEmpty || matchesAnyRegexp path opts.includeFilter)
  && !(excludeTests.contains path)
  && !(matchesAnyRegexp path opts.excludeFilter)

/-- The combined predicate `check_all` from `TestProfile.filter` (profile.py lines 391-397):
every profile filter and the built-in predicate must accept the item. -/
def checkAll (filters : List (String → TestT → Bool))
    (item : String × TestT) : Bool :=
  filters.all (fun f => f item.1 item.2)

/-- Embedding of `TestProfile.filter` (profile.py lines 369-407).  When the forced test
list is non-empty the collection is first restricted to it and reordered
to match it (missing entries allowed), and only then is the combined
predicate applied. -/
def TestProfile.filterProfile (p : TestProfile) (excludeTests : List String) :
    Except PErr TestProfile :=
  let filters := p.filters ++
    [fun path (_ : TestT) => testMatches p.options excludeTests path]
  let forcedPhase : Except PErr TestDict :=
    if p.forcedTestList ≠ [] then
      (p.testList.filterDict
        (fun i => p.forcedTestList.contains i.1)).reorder
        p.forcedTestList true
    else .ok p.testList
  match forcedPhase with
  | .error e => .error e
  | .ok tl => .ok { p with testList := tl.filterDict (checkAll filters) }

/-! ## `framework.profile.Collection.run`

The dispatch loop (profile.py lines 55-127) creates two thread pools and
feeds each profile's tests into them according to the profile's
`concurrency` option.  Side effects become an explicit trace of events in
program order: pool creation, handing a test to a pool, and the sink
write performed inside the `test` closure. -/

/-- The two worker pools of `Collection.run` (profile.py lines 102-103). -/
inductive Pool where
  | single
  | multi
  deriving DecidableEq, Repr

/-- Observable actions of `Collection.run`, in program order. -/
inductive Event where
  | poolCreated (p : Pool)
  | dispatched (p : Pool) (name : String)
  | sinkWrite (name : String)
  | summarized
  deriving DecidableEq, Repr

/-- The events produced by `run_threads(pool, iterable)` (profile.py lines
77-84): each item is handed to the pool and its result written through the
backend by the `test` closure (lines 62-75). -/
def runThreadsEvents (pool : Pool) (items : List (String × TestT)) :
    List Event :=
  (items.map (fun item => [Event.dispatched pool item.1,
                           Event.sinkWrite item.1])).flatten

/-- The per-profile dispatch of `Collection.run` (profile.py lines
109-123): `all` sends everything to the multi pool, `none` everything to
the single pool, and any other value (the `some` default) first drains the
`run_concurrent` tests through the multi pool and then the rest through
the single pool. -/
def profileDispatchEvents (p : TestProfile) : List Event :=
  if p.options.concurrency = "all" then
    runThreadsEvents .multi p.testList.container
  else if p.options.concurrency = "none" then
    runThreadsEvents .single p.testList.container
  else
    runThreadsEvents .multi
      (p.testList.container.filter (fun u => u.2.runConcurrent))
    ++ runThreadsEvents .single
      (p.testList.container.filter (fun u => !u.2.runConcurrent))

/-- Embedding of `Collection.run` (profile.py lines 59-127): filter every profile,
count the survivors, abort with a `PiglitFatalError` when no test is
scheduled (before the pools exist and before anything reaches the
backend), otherwise create the two pools and dispatch every profile. -/
def Collection_run (profiles : List TestProfile) (excludeTests : List String) :
    List Event × Option PErr :=
  let filtered := profiles.mapM (fun p => p.filterProfile excludeTests)
  match filtered with
  | .error e => ([], some e)
  | .ok ps =>
    let numTests := (ps.map (fun p => p.testList.container.length)).sum
    if numTests ≤ 0 then
      ([], some (.fatal "There are no tests scheduled to run, aborting."))
    else
      ([Event.poolCreated .single, Event.poolCreated .multi]
        ++ (ps.map profileDispatchEvents).flatten
        ++ [Event.summarized], none)

/-! ## `framework.test.deqp` — result interpretation

`DEQPBaseTest.interpret_result` (deqp.py lines 314-336) scans stdout for
two-space-indented result lines, skipping `INFO ... ----` blocks;
`DEQPGroupTest.interpret_result` (deqp.py lines 358-435) additionally
pairs each result with the preceding `Test case '...'..` header. -/

/-- The table `DEQPBaseTest._RESULT_MAP` (deqp.py lines 274-282). -/
def RESULT_MAP (c : Char) : Option Status :=
  if c = 'P' then some .pass
  else if c = 'F' then some .fail
  else if c = 'Q' then some .warn
  else if c = 'I' then some .fail
  else if c = 'C' then some .crash
  else if c = 'N' then some .skip
  else if c = 'R' then some .crash
  else none

/-- Python string indexing `s[i]` (raises `IndexError` out of range). -/
def pyCharAt (s : String) (i : Nat) : Except PErr Char :=
  match s.data.get? i with
  | some c => .ok c
  | none => .error .indexError

/-- The condition ending the `INFO` fast-forward loops in both
interpreters: `cur.startswith('INFO') and cur.endswith('----')`. -/
def infoTerminator (cur : String) : Bool :=
  pyStartsWith cur "INFO" && pyEndsWith cur "----"

/-- Reading a result line: `self._RESULT_MAP[l[2]]`, with Python's
`IndexError` on a too-short line and `KeyError` on an unknown code. -/
def resultMapAt (l : String) : Except PErr Status :=
  match pyCharAt l 2 with
  | .error e => .error e
  | .ok c =>
    match RESULT_MAP c with
    | none => .error (.keyError (String.singleton c))
    | some st => .ok st

/-- Whether the scanning loop of `DEQPBaseTest.interpret_result` is inside
the `while not (cur.startswith('INFO') and cur.endswith('----')): cur =
next(lines)` fast-forward (deqp.py lines 326-328).  The nested generator
consumption is flattened into a one-pass state machine: `inWhile` means
the inner `while` is pulling lines. -/
inductive SingleMode where
  | scanning
  | inWhile
  deriving DecidableEq, Repr

/-- The scanning loop of `DEQPBaseTest.interpret_result` (deqp.py lines
320-332), one consumed line per step.  The state is the loop mode, the
persistent `cur` variable, and the current `self.result.result`.  On an
`INFO` line the `while` loop first tests the current `cur`: if `cur` is
already a terminator it exits at once and re-examines `l = cur`,
otherwise subsequent lines are consumed until a terminator, which is then
re-examined as `l = cur`.  Exhausting the generator inside the `while`
raises `StopIteration`. -/
def deqpScanSingle : List String → SingleMode → String → Status →
    Except PErr Status
  | [], mode, _, res =>
    match mode with
    | .scanning => .ok res
    | .inWhile => .error .stopIteration
  | l :: ls, mode, cur, res =>
    match mode with
    | .scanning =>
      if pyStartsWith l "INFO" then
        if infoTerminator cur then
          -- the while exits immediately; `l = cur` is re-tested
          if pyStartsWith cur "  " then
            match resultMapAt cur with
            | .error e => .error e
            | .ok st => deqpScanSingle ls .scanning cur st
          else deqpScanSingle ls .scanning cur res
        else deqpScanSingle ls .inWhile cur res
      else if pyStartsWith l "  " then
        match resultMapAt l with
        | .error e => .error e
        | .ok st => deqpScanSingle ls .scanning cur st
      else deqpScanSingle ls .scanning cur res
    | .inWhile =>
      -- `cur = next(lines)`, then the while condition is re-tested
      if infoTerminator l then
        -- the while exits; `l = cur` is re-tested by the outer iteration
        if pyStartsWith l "  " then
          match resultMapAt l with
          | .error e => .error e
          | .ok st => deqpScanSingle ls .scanning l st
        else deqpScanSingle ls .scanning l res
      else deqpScanSingle ls .inWhile l res

/-- Modelled from the spec: `framework.test.base.is_crash_returncode` is
not under the provided sources (only its callers are).  Spec §4.4: "a
negative/signal-style exit code maps to status `crash`". -/
def is_crash_returncode (returncode : Int) : Bool := returncode < 0

/-- Embedding of `DEQPBaseTest.interpret_result` (deqp.py lines 314-336).  The result
starts as `notrun` (a fresh `Result`'s status); a crash return code
short-circuits, any other non-zero return code is `fail`, otherwise
stdout (minus its first 3 and last 8 lines) is scanned; a still-`notrun`
result falls back to `fail`. -/
def DEQPBaseTest_interpret_result (returncode : Int) (out : String) :
    Except PErr Status :=
  let scanned : Except PErr Status :=
    if is_crash_returncode returncode then .ok .crash
    else if returncode ≠ 0 then .ok .fail
    else
      deqpScanSingle
        (pySliceToNeg (pySliceFrom (pySplitLines (pyRstrip out)) 3) 8)
        .scanning "" .notrun
  match scanned with
  | .error e => .error e
  | .ok res => .ok (if res = .notrun then .fail else res)

/-- The stderr signature that triggers the X-server retry
(deqp.py line 342). -/
def displayFailureSignature : String := "FATAL ERROR: Failed to open display"

/-- The `for _ in range(5)` body of `DEQPBaseTest._run_command` (deqp.py
lines 338-345).  `attemptErr i` is the stderr produced by the `i`-th
invocation of the underlying command; the result counts how many times
the command ran and whether the final `TestRunError` was raised. -/
def runCommandLoop (attemptErr : Nat → String) :
    Nat → Nat → Nat × Option PErr
  | 0, ran =>
    (ran, some (.testRunError "Failed to connect to X server 5 times" "fail"))
  | Nat.succ k, ran =>
    if pyContains (attemptErr ran) displayFailureSignature then
      runCommandLoop attemptErr k (ran + 1)
    else (ran + 1, none)

/-- Embedding of `DEQPBaseTest._run_command` (deqp.py lines 338-345): run the command,
retrying while the display-failure signature appears in stderr, at most 5
times in total. -/
def DEQPBaseTest_run_command (attemptErr : Nat → String) : Nat × Option PErr :=
  runCommandLoop attemptErr 5 0

/-! ### `DEQPGroupTest.interpret_result` (deqp.py lines 348-435) -/

/-- Python string slicing `s[a:-b]`. -/
def pyStrSlice (s : String) (a b : Nat) : String :=
  ⟨(s.data.drop a).take (s.data.length - b - a)⟩

/-- The slicer `DEQPGroupTest.__name_slicer` applied to a header line:
`l[len("Test case '") : -len("'..")]`, that is `l[11:-3]`. -/
def nameSlice (l : String) : String := pyStrSlice l 11 3

/-- Python `s.rsplit('.', 1)[1]`: the segment after the last dot (raises
`IndexError` when the string contains no dot, since the rsplit then has a
single element). -/
def pyRsplitLast1 (s : String) : Except PErr String :=
  if s.data.contains '.' then
    .ok ⟨(s.data.reverse.takeWhile (fun c => c ≠ '.')).reverse⟩
  else .error .indexError

/-- The control position inside the `while len(subtests) < total` loop of
`DEQPGroupTest.interpret_result` (deqp.py lines 399-428).  The nested
loops all consume the same line generator, so they flatten to a one-pass
state machine: `needName` is the first inner `for` (looking for a
`Test case` header), `needResult name` the second inner `for` (looking for
the two-space result line), and `inInfoWhile name` the `while` that
fast-forwards over an `INFO` block (`cur` was just reset to `''`, which is
never a terminator, so the `while` always consumes lines until a
terminator line). -/
inductive GroupMode where
  | needName
  | needResult (name : String)
  | inInfoWhile (name : String)
  deriving DecidableEq, Repr

/-- The `while len(self.result.subtests) < total` loop of
`DEQPGroupTest.interpret_result` (deqp.py lines 399-428), one consumed
line per step: find the next `Test case` header, take its quoted path's
final dot-segment lower-cased as the subtest name, then find the
following result line (skipping `INFO` blocks), record the pair in the
subtests dict (later assignments to the same name overwrite in place),
and repeat until the dict holds `total` entries.  Running out of lines
raises `PiglitInternalError` (or `StopIteration` inside the `while`); an
unknown result code raises `PiglitInternalError`. -/
def groupScan (total : Nat) : List String → GroupMode →
    List (String × Status) → Except PErr (List (String × Status))
  | [], mode, _ =>
    match mode with
    | .needName =>
      .error (.internal "Expected \"Test case\", but didn't find it")
    | .needResult _ =>
      .error (.internal "Expected \"  (Pass,Fail,...)\", but didn't find it")
    | .inInfoWhile _ => .error .stopIteration
  | l :: ls, mode, subtests =>
    match mode with
    | .needName =>
      if pyStartsWith l "Test case" then
        match pyRsplitLast1 (nameSlice l) with
        | .error e => .error e
        | .ok seg => groupScan total ls (.needResult (pyLower seg)) subtests
      else groupScan total ls .needName subtests
    | .needResult name =>
      if pyStartsWith l "INFO" then
        -- `cur = ''` and the while consumes following lines
        groupScan total ls (.inInfoWhile name) subtests
      else if pyStartsWith l "  " then
        match pyCharAt l 2 with
        | .error e => .error e
        | .ok c =>
          match RESULT_MAP c with
          | none => .error (.internal "Unknown status")
          | some st =>
            let subtests' := odAssign subtests name st
            if subtests'.length < total then
              groupScan total ls .needName subtests'
            else .ok subtests'
      else groupScan total ls (.needResult name) subtests
    | .inInfoWhile name =>
      if infoTerminator l then groupScan total ls (.needResult name) subtests
      else groupScan total ls (.inInfoWhile name) subtests

/-- Entry into the group scanning loop: the `while` guard is tested before
the first iteration, so a declared total of zero consumes nothing. -/
def groupLoop (total : Nat) (lines : List String) :
    Except PErr (List (String × Status)) :=
  if 0 < total then groupScan total lines .needName []
  else .ok []

/-- One character of `\d`. -/
def isAsciiDigit (c : Char) : Bool := '0' ≤ c && c ≤ '9'

/-- Numeric value of a run of digits. -/
def digitsToNat (cs : List Char) : Nat :=
  cs.foldl (fun n c => n * 10 + (c.toNat - 48)) 0

/-- The part of `DEQPGroupTest.__finder` after the label and colon:
`\s+\d/(?P<total>\d+).*` — at least one whitespace character, a single
digit, a slash, and the captured run of digits. -/
def finderAfterLabel (cs : List Char) : Option Nat :=
  match cs with
  | c :: rest =>
    if pyIsSpace c then
      match rest.dropWhile pyIsSpace with
      | d :: '/' :: rest3 =>
        if isAsciiDigit d then
          let digits := rest3.takeWhile isAsciiDigit
          if digits.isEmpty then none else some (digitsToNat digits)
        else none
      | _ => none
    else none
  | [] => none

/-- The pattern `DEQPGroupTest.__finder` (deqp.py line 352):
`^  (Warnings|Not supported|Failed|Passed):\s+\d/(?P<total>\d+).*`,
returning the captured total on a match. -/
def finderTotal (l : String) : Option Nat :=
  let tryLabel (label : String) : Option Nat :=
    let pre := ("  " ++ label ++ ":").data
    if pre.isPrefixOf l.data then finderAfterLabel (l.data.drop pre.length)
    else none
  match tryLabel "Warnings" with
  | some n => some n
  | none =>
    match tryLabel "Not supported" with
    | some n => some n
    | none =>
      match tryLabel "Failed" with
      | some n => some n
      | none => tryLabel "Passed"

/-- The backwards totals search of `DEQPGroupTest.interpret_result`
(deqp.py lines 386-390): first match of `__finder` in `reversed(lines)`. -/
def findTotal (lines : List String) : Option Nat :=
  lines.reverse.findSome? finderTotal

/-- The set `_RERUN` with its default value (deqp.py lines 66-68):
`'crash notrun incomplete timeout'.split()`. -/
def RERUN : List Status := [.crash, .notrun, .incomplete, .timeout]

/-- The outcome of `DEQPGroupTest.interpret_result`: the test's own
status, the subtests dict in insertion order, and the individual case
names appended to the class-level rerun queue. -/
structure GroupResult where
  result : Status
  subtests : List (String × Status)
  rerun : List String
  deriving DecidableEq, Repr

/-- Embedding of `DEQPGroupTest.interpret_result` (deqp.py lines 358-435).  A non-zero
return code is classified `crash` without looking at stdout.  Otherwise
the totals summary is located scanning the (3-line-stripped) stdout
backwards (`assert total is not None`), and name/result pairs are
consumed from the further 8-line-end-stripped lines until the subtest
count reaches the total.  Finally, when `deqp_group_rerun` is enabled and
the status is in `_RERUN` the individual cases are queued for rerun;
otherwise a still-`notrun` status falls back to `fail`. -/
def DEQPGroupTest_interpret_result (groupRerun : Bool)
    (individualCases : List String) (returncode : Int) (out : String) :
    Except PErr GroupResult :=
  let parsed : Except PErr (Status × List (String × Status)) :=
    if returncode ≠ 0 then .ok (.crash, [])
    else
      let lines := pySliceFrom (pySplitLines (pyRstrip out)) 3
      match findTotal lines with
      | none => .error (.assertionError "Could not calculate total test count")
      | some total =>
        match groupLoop total (pySliceToNeg lines 8) with
        | .error e => .error e
        | .ok subtests => .ok (.notrun, subtests)
  match parsed with
  | .error e => .error e
  | .ok (res, subtests) =>
    if groupRerun && RERUN.contains res then
      .ok ⟨res, subtests, individualCases⟩
    else if res = .notrun then
      .ok ⟨.fail, subtests, []⟩
    else .ok ⟨res, subtests, []⟩

/-! ## `framework.test.shader_test.MultiShaderTest` -/

/-- The in-band skip marker tested by `MultiShaderTest._stop_status`
(shader_test.py line 382). -/
def piglitSkipMarker : String := "PIGLIT: \x7b\"result\": \"skip\" \x7d\n"

/-- Embedding of `MultiShaderTest._stop_status` (shader_test.py lines 379-386): when
the run stopped early, a stdout ending in the skip marker means the
mid-flight file skipped, a positive return code means it failed, anything
else (a signal) means it crashed. -/
def MultiShaderTest_stop_status (out : String) (returncode : Int) : Status :=
  if pyEndsWith out piglitSkipMarker then .skip
  else if returncode > 0 then .fail
  else .crash

/-- Modelled from the spec:
`framework.test.base.ReducedProcessMixin.interpret_result`, the driver
that calls `_stop_status`, is not under the provided sources (only
`MultiShaderTest`, which inherits it, is).  Per spec §4.7 steps 2-5: each
expected file whose stdout/stderr blocks completed gets its parsed
status; when the streams run out before all files are accounted for, the
file that was mid-flight is attributed the status computed by
`MultiShaderTest._stop_status` and every file after it is reported as
unprocessed ("todo").  `parsed` lists the statuses of the files whose
blocks completed, in order. -/
def reducedProcessInterpret (expected : List String) (parsed : List Status)
    (out : String) (returncode : Int) :
    List (String × Status) × List String :=
  if parsed.length ≥ expected.length then
    (expected.zip parsed, [])
  else
    ((expected.take parsed.length).zip parsed ++
       [((expected.get? parsed.length).getD "",
         MultiShaderTest_stop_status out returncode)],
     expected.drop (parsed.length + 1))

/-! ## Concrete stdout samples

These reproduce the fixtures of `unittests/deqp_tests.py`: the two-case
group output of `TestDEQPGroupTest_interpret_result`, the CTS-style output
with `INFO` blocks of `test_DEQPGroupTest_interpret_result_cts`, and the
single-case output of `TestDEQPBaseTestIntepretResultStatus`. -/

/-- The two-case group-mode stdout sample (one `Fail`, one `Pass`, totals
`2/2`), as in `TestDEQPGroupTest_interpret_result`. -/
def sampleGroupOut : String := "\n".intercalate [
  "",
  "dEQP Core unknown (0xcafebabe) starting..",
  "  target implementation = 'X11 GLX'",
  "",
  "Test case 'dEQP-GLES3.functional.fragment_out.random.0'..",
  "Vertex shader compile time = 4.134000 ms",
  "Fragment shader compile time = 0.345000 ms",
  "Link time = 2.442000 ms",
  "Test case duration in microseconds = 10164 us",
  "  Fail (After program setup: glGetError() returned GL_INVALID_FRAMEBUFFER_OPERATION at es3fFragmentOutputTests.cpp:706)",
  "",
  "Test case 'dEQP-GLES3.functional.fragment_out.random.1'..",
  "Vertex shader compile time = 0.352000 ms",
  "Fragment shader compile time = 0.276000 ms",
  "Link time = 2.625000 ms",
  "Test case duration in microseconds = 3894 us",
  "  Pass (After program setup: glGetError() returned GL_INVALID_FRAMEBUFFER_OPERATION at es3fFragmentOutputTests.cpp:706)",
  "",
  "DONE!",
  "",
  "Test run totals:",
  "  Passed:        2/2 (100.0%)",
  "  Failed:        0/2 (0.0%)",
  "  Not supported: 0/2 (0.0%)",
  "  Warnings:      0/2 (0.0%)",
  ""]

/-- One CTS-style test case whose `INFO ... ----` block sits between the
header and the result line, and contains lines that begin with two spaces
(which would be misread as result lines if the block were not skipped). -/
def sampleCtsCase (n : String) : List String :=
  [ "Test case 'A.Test.case." ++ n ++ "'..",
    "INFO:a test-------------------------------- BEGIN ---------------------------------",
    "INFO:a test",
    "",
    "[FRAGMENT SHADER]",
    "",
    "#version 300 es",
    "precision highp int;",
    "",
    "struct S \x7b",
    "    vec4 foo;",
    "    vec2 fo[2];",
    "\x7d;",
    "INFO:a test:OK",
    "INFO:a test:--------------------------------- END ----------------------------------",
    "  Pass (Pass)",
    ""]

/-- The CTS-style group-mode stdout sample, as in
`test_DEQPGroupTest_interpret_result_cts`. -/
def sampleCtsOut : String := "\n".intercalate ([
  "dEQP Core GL-CTS-2.0 (0x0052484b) starting..",
  "  target implementation = 'intel-gbm'",
  ""] ++
  sampleCtsCase "1" ++
  sampleCtsCase "2" ++ [
  "DONE!",
  "",
  "Test run totals:",
  "  Passed:        2/2 (100.00%)",
  "  Failed:        0/2 (0.00%)",
  "  Not supported: 0/2 (0.00%)",
  "  Warnings:      0/2 (0.00%)",
  ""])

/-- The single-case stdout sample of
`TestDEQPBaseTestIntepretResultStatus`, parametrised by the result word. -/
def sampleSingleOut (stat : String) : String := "\n".intercalate [
  "dEQP Core 2014.x (0xcafebabe) starting..",
  "  target implementation = 'DRM'",
  "",
  "Test case 'dEQP-GLES2.functional.shaders.conversions.vector_to_vector.vec3_to_ivec3_fragment'..",
  "Vertex shader compile time = 0.129000 ms",
  "Fragment shader compile time = 0.264000 ms",
  "Link time = 0.814000 ms",
  "Test case duration in microseconds = 487155 us",
  "  " ++ stat ++ " (" ++ stat ++ ")",
  "",
  "DONE!",
  "",
  "Test run totals:",
  "  Passed:        0/1 (100.0%)",
  "  Failed:        1/1 (0.0%)",
  "  Not supported: 0/1 (0.0%)",
  "  Warnings:      0/1 (0.0%)",
  "Test run was ABORTED!",
  ""]

/-- The result words of dEQP single-case output paired with the status
`_RESULT_MAP` assigns to their initial: `P`→pass, `F`→fail, `Q`→warn,
`I`→fail, `C`→crash, `N`→skip, `R`→crash. -/
def singleResultTable : List (String × Status) :=
  [("Pass", .pass), ("Fail", .fail), ("QualityWarning", .warn),
   ("InternalError", .fail), ("Crash", .crash), ("NotSupported", .skip),
   ("ResourceError", .crash)]

/-- A single-case stdout in which an `INFO ... ----` block between the
test-case header and its result line contains a line that looks like a
`Fail` result; the real result line is `Pass`. -/
def sampleInfoSingle : String := "\n".intercalate [
  "h0", "h1", "h2",
  "Test case 'x.y'..",
  "INFO:begin",
  "  Fail (inside the INFO block; must not be read as a result)",
  "INFO:end ----",
  "  Pass (Pass)",
  "", "DONE!", "",
  "Test run totals:",
  "  Passed:        1/1 (100.0%)",
  "f", "g", "h"]

/-- A single-case stdout with two result lines; the later one wins. -/
def sampleTwoResults : String := "\n".intercalate [
  "h0", "h1", "h2",
  "Test case 'x.y'..",
  "  Fail (overridden by the later result line)",
  "  Pass (Pass)",
  "", "DONE!", "",
  "Test run totals:",
  "  Passed:        1/1 (100.0%)",
  "f", "g", "h"]

/-- A concrete profile demonstrating the forced-list/filter phase order:
the forced list pins `a` and `b`, but a profile-level filter rejects `b`,
so `b` is dropped even though it is on the forced list. -/
def sampleForcedProfile : TestProfile where
  testList :=
    ⟨0, [("b", ⟨["bin/b"], true⟩), ("a", ⟨["bin/a"], true⟩),
         ("c", ⟨["bin/c"], true⟩)]⟩
  forcedTestList := ["a", "b"]
  filters := [fun path _ => path ≠ "b"]
  options :=
    { dmesg := false, monitor := false, concurrency := "some",
      includeFilter := [], excludeFilter := [] }

/-- A profile with an empty collection, used to exercise the
zero-tests-scheduled abort. -/
def sampleEmptyProfile : TestProfile where
  testList := ⟨0, []⟩
  forcedTestList := []
  filters := []
  options :=
    { dmesg := false, monitor := false, concurrency := "some",
      includeFilter := [], excludeFilter := [] }

/-- A profile whose tests are all `run_concurrent`, used to exercise the
`some` dispatch tiering. -/
def sampleConcurrentProfile : TestProfile where
  testList :=
    ⟨0, [("a", ⟨["bin/a"], true⟩), ("b", ⟨["bin/b"], true⟩)]⟩
  forcedTestList := []
  filters := []
  options :=
    { dmesg := false, monitor := false, concurrency := "some",
      includeFilter := [], excludeFilter := [] }

/-! ## Supporting lemmas -/

set_option maxRecDepth 40000

/-- Lower-casing after upper-casing agrees with lower-casing (ASCII). -/
theorem pyCharLower_pyCharUpper (c : Char) :
    pyCharLower (pyCharUpper c) = pyCharLower c := by
  unfold pyCharUpper
  split
  all_goals try rfl

/-- Lower-casing is idempotent on characters. -/
theorem pyCharLower_pyCharLower (c : Char) :
    pyCharLower (pyCharLower c) = pyCharLower c := by
  have h : pyCharLower c = c ∨
      pyCharLower c ∈ "abcdefghijklmnopqrstuvwxyz".data := by
    unfold pyCharLower
    split
    all_goals try (right; decide)
    left; rfl
  rcases h with h | h
  · rw [h]; exact h
  · generalize pyCharLower c = d at h ⊢
    fin_cases h <;> rfl

/-- Strings satisfy `s.upper().lower() == s.lower()`. -/
theorem pyLower_pyUpper (s : String) : pyLower (pyUpper s) = pyLower s := by
  simp only [pyLower, pyUpper, List.map_map]
  congr 1
  induction s.data with
  | nil => rfl
  | cons c cs ih => simp [ih, pyCharLower_pyCharUpper]

/-- Strings satisfy `s.lower().lower() == s.lower()`. -/
theorem pyLower_pyLower (s : String) : pyLower (pyLower s) = pyLower s := by
  simp only [pyLower, List.map_map]
  congr 1
  induction s.data with
  | nil => rfl
  | cons c cs ih => simp [ih, pyCharLower_pyCharLower]

/-- Looking a key up right after assigning it returns the new value. -/
theorem odLookup_odAssign {α : Type} (c : List (String × α)) (k : String)
    (v : α) : odLookup (odAssign c k v) k = .ok v := by
  induction c with
  | nil => simp [odAssign, odLookup]
  | cons p rest ih =>
    obtain ⟨k', v'⟩ := p
    by_cases h : k' = k
    · simp [odAssign, odLookup, h]
    · simp [odAssign, odLookup, h, ih]

/-- A pool's `run_threads` trace has a dispatch event for every item. -/
theorem mem_runThreadsEvents_dispatched (pool : Pool)
    (items : List (String × TestT)) (name : String) (t : TestT)
    (h : (name, t) ∈ items) :
    Event.dispatched pool name ∈ runThreadsEvents pool items := by
  simp only [runThreadsEvents, List.mem_flatten]
  exact ⟨[Event.dispatched pool name, Event.sinkWrite name],
         List.mem_map_of_mem _ h, by simp⟩

/-- A pool's `run_threads` trace has a sink write for every item. -/
theorem mem_runThreadsEvents_sinkWrite (pool : Pool)
    (items : List (String × TestT)) (name : String) (t : TestT)
    (h : (name, t) ∈ items) :
    Event.sinkWrite name ∈ runThreadsEvents pool items := by
  simp only [runThreadsEvents, List.mem_flatten]
  exact ⟨[Event.dispatched pool name, Event.sinkWrite name],
         List.mem_map_of_mem _ h, by simp⟩

/-- Every event of a pool's `run_threads` trace is a dispatch to that
pool or a sink write. -/
theorem runThreadsEvents_shape (pool : Pool)
    (items : List (String × TestT)) (e : Event)
    (h : e ∈ runThreadsEvents pool items) :
    (∃ nm, e = Event.dispatched pool nm) ∨ ∃ nm, e = Event.sinkWrite nm := by
  simp only [runThreadsEvents, List.mem_flatten, List.mem_map] at h
  obtain ⟨l, ⟨item, _, rfl⟩, hel⟩ := h
  simp only [List.mem_cons, List.mem_singleton, List.not_mem_nil,
             or_false] at hel
  rcases hel with rfl | rfl
  · exact .inl ⟨_, rfl⟩
  · exact .inr ⟨_, rfl⟩

/-- The keys after a Python-dict assignment: unchanged when the key was
present, the key appended when it was new. -/
theorem odAssign_map_fst {α : Type} (c : List (String × α)) (k : String)
    (v : α) :
    (odAssign c k v).map Prod.fst =
      if k ∈ c.map Prod.fst then c.map Prod.fst
      else c.map Prod.fst ++ [k] := by
  induction c with
  | nil => simp [odAssign]
  | cons p rest ih =>
    obtain ⟨k', v'⟩ := p
    by_cases h : k' = k
    · subst h
      simp [odAssign]
    · by_cases hm : k ∈ rest.map Prod.fst
      · simp [odAssign, h, ih, hm, Ne.symm h]
      · simp [odAssign, h, ih, hm, Ne.symm h]

/-- The fold of `TestDict.reorder` with `allow_missing` never fails, and
the keys it accumulates extend the accumulator by a sublist of the order
list (order entries absent from the container are skipped; duplicates
keep their first position). -/
theorem reorder_foldl_true (c : List (String × TestT)) :
    ∀ (order : List String) (acc : List (String × TestT)),
    ∃ r, order.foldl (TestDict.reorderStep c true) (.ok acc) = .ok r ∧
      ∃ ext, r.map Prod.fst = acc.map Prod.fst ++ ext ∧
        ext.Sublist order := by
  intro order
  induction order with
  | nil =>
    intro acc
    exact ⟨acc, rfl, [], by simp, List.nil_sublist _⟩
  | cons k rest ih =>
    intro acc
    rw [List.foldl_cons]
    cases hl : c.lookup k with
    | none =>
      have hstep : TestDict.reorderStep c true (.ok acc) k = .ok acc := by
        simp [TestDict.reorderStep, hl]
      rw [hstep]
      obtain ⟨r, hr, ext, hkeys, hsub⟩ := ih acc
      exact ⟨r, hr, ext, hkeys, hsub.cons _⟩
    | some v =>
      have hstep : TestDict.reorderStep c true (.ok acc) k =
          .ok (odAssign acc k v) := by
        simp [TestDict.reorderStep, hl]
      rw [hstep]
      obtain ⟨r, hr, ext, hkeys, hsub⟩ := ih (odAssign acc k v)
      by_cases hm : k ∈ acc.map Prod.fst
      · refine ⟨r, hr, ext, ?_, hsub.cons _⟩
        rw [hkeys, odAssign_map_fst, if_pos hm]
      · refine ⟨r, hr, k :: ext, ?_, hsub.cons₂ _⟩
        rw [hkeys, odAssign_map_fst, if_neg hm]
        simp

/-- Running `TestDict.reorder` with `allow_missing=True` succeeds and produces a
container whose key sequence is a sublist of the requested order. -/
theorem reorder_true_ok (d : TestDict) (order : List String) :
    ∃ r, d.reorder order true = .ok r ∧
      (r.container.map Prod.fst).Sublist order := by
  obtain ⟨rc, hrc, ext, hkeys, hsub⟩ := reorder_foldl_true d.container order []
  refine ⟨{ d with container := rc }, ?_, ?_⟩
  · simp [TestDict.reorder, hrc]
  · simpa [hkeys] using hsub

/-! ## Claim theorems -/

/-- C2: for a profile whose concurrency option is `some`, every
`run_concurrent` test is handed to the multi pool and every other test to
the single pool; when all tests are `run_concurrent` the trace is exactly
the multi-pool run of the whole collection and no single-pool dispatch
occurs; and the sink write (completion) of every `run_concurrent` test
precedes every single-pool dispatch, so the multi pool is drained before
the single pool starts. -/
theorem collection_some_dispatch_claim (p : TestProfile)
    (hc : p.options.concurrency = "some") :
    (∀ name t, (name, t) ∈ p.testList.container →
       Event.dispatched (if t.runConcurrent then Pool.multi else Pool.single)
         name ∈ profileDispatchEvents p) ∧
    ((∀ x ∈ p.testList.container, x.2.runConcurrent = true) →
       profileDispatchEvents p =
         runThreadsEvents .multi p.testList.container ∧
       ∀ n, Event.dispatched .single n ∉ profileDispatchEvents p) ∧
    (∀ name t, (name, t) ∈ p.testList.container → t.runConcurrent = true →
       ∀ (j : Nat) (hj : j < (profileDispatchEvents p).length) (n : String),
         (profileDispatchEvents p).get ⟨j, hj⟩ =
           Event.dispatched .single n →
         ∃ (i : Nat) (hi : i < (profileDispatchEvents p).length),
           i < j ∧
           (profileDispatchEvents p).get ⟨i, hi⟩ = Event.sinkWrite name) := by
  have hev : profileDispatchEvents p =
      runThreadsEvents .multi
        (p.testList.container.filter (fun u => u.2.runConcurrent))
      ++ runThreadsEvents .single
        (p.testList.container.filter (fun u => !u.2.runConcurrent)) := by
    have h1 : p.options.concurrency ≠ "all" := by rw [hc]; decide
    have h2 : p.options.concurrency ≠ "none" := by rw [hc]; decide
    simp [profileDispatchEvents, h1, h2]
  refine ⟨?_, ?_, ?_⟩
  · intro name t hmem
    rw [hev]
    by_cases hrc : t.runConcurrent
    · have hmf : (name, t) ∈
          p.testList.container.filter (fun u => u.2.runConcurrent) :=
        List.mem_filter.mpr ⟨hmem, by simp [hrc]⟩
      simpa [hrc] using List.mem_append_left _
        (mem_runThreadsEvents_dispatched .multi _ name t hmf)
    · have hmf : (name, t) ∈
          p.testList.container.filter (fun u => !u.2.runConcurrent) :=
        List.mem_filter.mpr ⟨hmem, by simp [hrc]⟩
      simpa [hrc] using List.mem_append_right _
        (mem_runThreadsEvents_dispatched .single _ name t hmf)
  · intro h2
    have hA : p.testList.container.filter (fun u => u.2.runConcurrent) =
        p.testList.container :=
      List.filter_eq_self.mpr (fun a ha => by simpa using h2 a ha)
    have hB : p.testList.container.filter (fun u => !u.2.runConcurrent) =
        ([] : List (String × TestT)) :=
      List.filter_eq_nil.mpr (fun a ha => by simp [h2 a ha])
    have hev2 : profileDispatchEvents p =
        runThreadsEvents .multi p.testList.container := by
      rw [hev, hA, hB]
      simp [runThreadsEvents]
    refine ⟨hev2, ?_⟩
    intro n hn
    rw [hev2] at hn
    rcases runThreadsEvents_shape _ _ _ hn with ⟨nm, he⟩ | ⟨nm, he⟩ <;>
      simp at he
  · intro name t hmem hrc j
    rw [hev]
    intro hj n hget
    have hmf : (name, t) ∈
        p.testList.container.filter (fun u => u.2.runConcurrent) :=
      List.mem_filter.mpr ⟨hmem, by simp [hrc]⟩
    have hsw := mem_runThreadsEvents_sinkWrite .multi _ name t hmf
    obtain ⟨⟨i, hiA⟩, hgetA⟩ := List.mem_iff_get.mp hsw
    have hi : i < (runThreadsEvents .multi
        (p.testList.container.filter (fun u => u.2.runConcurrent)) ++
        runThreadsEvents .single
        (p.testList.container.filter (fun u => !u.2.runConcurrent))).length := by
      rw [List.length_append]
      omega
    have hgeti : (runThreadsEvents .multi
        (p.testList.container.filter (fun u => u.2.runConcurrent)) ++
        runThreadsEvents .single
        (p.testList.container.filter (fun u => !u.2.runConcurrent))).get
          ⟨i, hi⟩ =
        (runThreadsEvents .multi
          (p.testList.container.filter
            (fun u => u.2.runConcurrent))).get ⟨i, hiA⟩ :=
      List.get_append i hiA
    have hjge : ¬ j < (runThreadsEvents .multi
        (p.testList.container.filter (fun u => u.2.runConcurrent))).length := by
      intro hlt
      rw [List.get_append j hlt] at hget
      have hshape := runThreadsEvents_shape _ _ _
        (hget ▸ List.get_mem _ j hlt)
      rcases hshape with ⟨nm, he⟩ | ⟨nm, he⟩ <;> simp at he
    refine ⟨i, hi, by omega, ?_⟩
    rw [hgeti, hgetA]

/-- C2 witness: in the all-concurrent sample profile both tests dispatch
to the multi pool and the trace equals the multi-pool run of the whole
collection. -/
theorem collection_some_dispatch_claim_witness :
    Event.dispatched Pool.multi "a" ∈
      profileDispatchEvents sampleConcurrentProfile ∧
    profileDispatchEvents sampleConcurrentProfile =
      runThreadsEvents .multi sampleConcurrentProfile.testList.container := by
  have h := collection_some_dispatch_claim sampleConcurrentProfile (by rfl)
  exact ⟨by simpa using h.1 "a" ⟨["bin/a"], true⟩ (by decide),
         (h.2.1 (by decide)).1⟩

/-- C1: For the dEQP group-mode interpreter run with returncode 0 on a
stdout containing two `Test case` headers whose result lines are `Fail`
and `Pass` plus a totals summary declaring 2/2, the subtests mapping is
exactly `{'0': fail, '1': pass}` (keys are the final dot-segment of the
case path, lower-cased); and an `INFO...----` delimited block between a
test-case header and its result line is skipped without being misread as
a result line (the CTS sample's blocks contain two-space-indented lines,
yet both cases parse as `pass`). -/
theorem deqp_group_mode_sample_parse :
    DEQPGroupTest_interpret_result true [] 0 sampleGroupOut =
      .ok ⟨.notrun, [("0", .fail), ("1", .pass)], []⟩ ∧
    DEQPGroupTest_interpret_result true [] 0 sampleCtsOut =
      .ok ⟨.notrun, [("1", .pass), ("2", .pass)], []⟩ :=
  ⟨rfl, rfl⟩

/-- C4: inserting any key into an empty `TestDict` and then reading it
back under `key.upper()`, `key.lower()`, or `key` unchanged returns the
same test: keys are case-folded on both insertion and lookup. -/
theorem testdict_case_fold_invariant (k : String) (v : TestT) :
    ∃ d, TestDict.empty.setItem k v = .ok d ∧
      d.getItem (pyUpper k) = .ok v ∧
      d.getItem (pyLower k) = .ok v ∧
      d.getItem k = .ok v := by
  refine ⟨⟨0, [(pyLower k, v)]⟩, ?_, ?_, ?_, ?_⟩
  · simp [TestDict.setItem, TestDict.empty, odAssign]
  · simp [TestDict.getItem, pyLower_pyUpper, odLookup]
  · simp [TestDict.getItem, pyLower_pyLower, odLookup]
  · simp [TestDict.getItem, odLookup]

/-- C10: the dEQP group-mode interpreter classifies every non-zero return
code — positive, non-signal exit codes included — as `crash` without
scanning stdout at all (the result is the same for every stdout, well
formed or not), unlike single-case mode, where a positive return code
that is not crash-classified yields `fail`. -/
theorem deqp_group_nonzero_crash (gr : Bool) (ic : List String) (rc : Int)
    (out : String) :
    (rc ≠ 0 → DEQPGroupTest_interpret_result gr ic rc out =
       .ok ⟨.crash, [], if gr then ic else []⟩) ∧
    (0 < rc → is_crash_returncode rc = false ∧
       DEQPBaseTest_interpret_result rc out = .ok .fail) := by
  constructor
  · intro h
    cases gr <;> simp [DEQPGroupTest_interpret_result, h, RERUN]
  · intro h
    have hc : is_crash_returncode rc = false := by
      simp only [is_crash_returncode, decide_eq_false_iff_not]
      omega
    refine ⟨hc, ?_⟩
    have hne : rc ≠ 0 := by omega
    simp [DEQPBaseTest_interpret_result, hc, hne]

/-- C10 witness: return code 1 on the complete, well-formed two-case
group listing still comes back `crash` with no subtests, while
single-case mode at return code 1 yields `fail`. -/
theorem deqp_group_nonzero_crash_witness :
    DEQPGroupTest_interpret_result true ["a.b.0"] 1 sampleGroupOut =
      .ok ⟨.crash, [], ["a.b.0"]⟩ ∧
    DEQPBaseTest_interpret_result 1 (sampleSingleOut "Pass") = .ok .fail :=
  ⟨by simpa using
      (deqp_group_nonzero_crash true ["a.b.0"] 1 sampleGroupOut).1
        (by decide),
   ((deqp_group_nonzero_crash true ["a.b.0"] 1
       (sampleSingleOut "Pass")).2 (by decide)).2⟩

/-- C7: the dEQP single-case interpreter maps a crash-classified exit
code to `crash` regardless of stdout; a non-zero non-crash exit to `fail`
regardless of stdout; with exit code 0 the result comes from the last
stdout line beginning with two spaces through the table `P`→pass,
`F`→fail, `Q`→warn, `I`→fail, `C`→crash, `N`→skip, `R`→crash (the
later of two result lines wins), with `INFO...----` blocks skipped; and
with no result line at all the status falls back to `fail`. -/
theorem deqp_single_interpret_claim :
    (∀ rc out, is_crash_returncode rc = true →
       DEQPBaseTest_interpret_result rc out = .ok .crash) ∧
    (∀ rc out, is_crash_returncode rc = false → rc ≠ 0 →
       DEQPBaseTest_interpret_result rc out = .ok .fail) ∧
    (∀ stat st, (stat, st) ∈ singleResultTable →
       DEQPBaseTest_interpret_result 0 (sampleSingleOut stat) = .ok st) ∧
    DEQPBaseTest_interpret_result 0 sampleInfoSingle = .ok .pass ∧
    DEQPBaseTest_interpret_result 0 sampleTwoResults = .ok .pass ∧
    DEQPBaseTest_interpret_result 0 "" = .ok .fail := by
  refine ⟨?_, ?_, ?_, rfl, rfl, rfl⟩
  · intro rc out h
    simp [DEQPBaseTest_interpret_result, h]
  · intro rc out h hne
    simp [DEQPBaseTest_interpret_result, h, hne]
  · intro stat st h
    fin_cases h <;> rfl

/-- C7 witness: concrete instances of each branch of the single-case
interpreter claim. -/
theorem deqp_single_interpret_claim_witness :
    DEQPBaseTest_interpret_result (-9) "anything" = .ok .crash ∧
    DEQPBaseTest_interpret_result 3 "anything" = .ok .fail ∧
    DEQPBaseTest_interpret_result 0 (sampleSingleOut "NotSupported") =
      .ok .skip :=
  ⟨deqp_single_interpret_claim.1 (-9) "anything" (by decide),
   deqp_single_interpret_claim.2.1 3 "anything" (by decide) (by decide),
   deqp_single_interpret_claim.2.2.1 "NotSupported" .skip (by decide)⟩

/-- C9: when a multi-file shader-test run stops with files left over, the
mid-flight file (the one after the completed prefix) receives the
stop-status and every file after it is reported as unprocessed todo; the
stop-status is `crash` for a negative (signal) exit code, `skip` when
stdout ends in the PIGLIT skip marker, and `fail` for a positive exit
code (the marker check has priority in `_stop_status`, so the crash and
fail cases assume the marker is absent). -/
theorem multi_shader_stop_claim (expected : List String)
    (parsed : List Status) (out : String) (rc : Int)
    (h : parsed.length < expected.length) :
    (reducedProcessInterpret expected parsed out rc).2 =
        expected.drop (parsed.length + 1) ∧
    (reducedProcessInterpret expected parsed out rc).1.getLast? =
        some ((expected.get? parsed.length).getD "",
              MultiShaderTest_stop_status out rc) ∧
    (rc < 0 → pyEndsWith out piglitSkipMarker = false →
       MultiShaderTest_stop_status out rc = .crash) ∧
    (pyEndsWith out piglitSkipMarker = true →
       MultiShaderTest_stop_status out rc = .skip) ∧
    (0 < rc → pyEndsWith out piglitSkipMarker = false →
       MultiShaderTest_stop_status out rc = .fail) := by
  have hn : ¬ parsed.length ≥ expected.length := by omega
  refine ⟨?_, ?_, ?_, ?_, ?_⟩
  · simp [reducedProcessInterpret, hn]
  · simp [reducedProcessInterpret, hn]
  · intro hrc hm
    have : ¬ rc > 0 := by omega
    simp [MultiShaderTest_stop_status, hm, this]
  · intro hm
    simp [MultiShaderTest_stop_status, hm]
  · intro hrc hm
    simp [MultiShaderTest_stop_status, hm, hrc]

/-- C9 witness: three files with one completed and a signal exit: the
second file is attributed `crash` and the third is todo; the skip-marker
and positive-exit stop statuses at the same point are `skip` and `fail`. -/
theorem multi_shader_stop_claim_witness :
    (reducedProcessInterpret ["A", "B", "C"] [.pass] "" (-5)).2 = ["C"] ∧
    (reducedProcessInterpret ["A", "B", "C"] [.pass] "" (-5)).1.getLast? =
      some ("B", MultiShaderTest_stop_status "" (-5)) ∧
    MultiShaderTest_stop_status "" (-5) = .crash ∧
    MultiShaderTest_stop_status piglitSkipMarker (-5) = .skip ∧
    MultiShaderTest_stop_status "" 2 = .fail := by
  have h1 := multi_shader_stop_claim ["A", "B", "C"] [.pass] "" (-5)
    (by decide)
  have h2 := multi_shader_stop_claim ["A", "B", "C"] [.pass]
    piglitSkipMarker (-5) (by decide)
  have h3 := multi_shader_stop_claim ["A", "B", "C"] [.pass] "" 2
    (by decide)
  refine ⟨by simpa using h1.1, by simpa using h1.2.1,
          h1.2.2.1 (by decide) (by rfl),
          h2.2.2.2.1 (by rfl),
          h3.2.2.2.2 (by decide) (by rfl)⟩

/-- The loop of `_run_command` never runs the command more often than its
remaining range allows. -/
theorem runCommandLoop_count_le (att : Nat → String) (n acc : Nat) :
    (runCommandLoop att n acc).1 ≤ acc + n := by
  induction n generalizing acc with
  | zero => simp [runCommandLoop]
  | succ k ih =>
    rw [runCommandLoop]
    split
    · exact Nat.le_trans (ih (acc + 1)) (by omega)
    · omega

/-- When every remaining attempt shows the signature, the loop runs the
command for the whole range and then raises the `TestRunError`. -/
theorem runCommandLoop_all_fail (att : Nat → String) (n acc : Nat)
    (h : ∀ i, acc ≤ i → i < acc + n →
      pyContains (att i) displayFailureSignature = true) :
    runCommandLoop att n acc =
      (acc + n,
       some (.testRunError "Failed to connect to X server 5 times" "fail")) := by
  induction n generalizing acc with
  | zero => simp [runCommandLoop]
  | succ k ih =>
    rw [runCommandLoop]
    rw [h acc (Nat.le_refl _) (by omega)]
    simp only [if_true]
    rw [ih (acc + 1) (fun i h1 h2 => h i (by omega) (by omega))]
    congr 1
    omega

/-- When the first signature-free attempt is attempt `acc + k` of the
remaining range, the loop stops right after it. -/
theorem runCommandLoop_first_success (att : Nat → String) (n acc k : Nat)
    (hk : k < n)
    (hfree : pyContains (att (acc + k)) displayFailureSignature = false)
    (hbefore : ∀ j, j < k →
      pyContains (att (acc + j)) displayFailureSignature = true) :
    runCommandLoop att n acc = (acc + k + 1, none) := by
  induction n generalizing acc k with
  | zero => omega
  | succ m ih =>
    rw [runCommandLoop]
    cases k with
    | zero =>
      simp only [Nat.add_zero] at hfree
      rw [hfree]
      simp
    | succ k' =>
      have h0 : pyContains (att acc) displayFailureSignature = true := by
        simpa using hbefore 0 (Nat.succ_pos _)
      rw [h0]
      simp only [if_true]
      rw [ih (acc + 1) k' (by omega)
        (by simpa [Nat.add_assoc, Nat.add_comm 1 k'] using hfree)
        (fun j hj => by
          simpa [Nat.add_assoc, Nat.add_comm 1 j] using
            hbefore (j + 1) (by omega))]
      congr 1
      omega

/-- C8: the display-connection retry of `_run_command` runs the command
at most 5 times; when all 5 attempts carry the failure signature the
outcome is the distinguishing `TestRunError` after exactly 5 runs (the
loop terminates); and the first attempt without the signature stops the
retrying immediately, with no error. -/
theorem deqp_display_retry_claim (att : Nat → String) :
    (DEQPBaseTest_run_command att).1 ≤ 5 ∧
    ((∀ i, i < 5 → pyContains (att i) displayFailureSignature = true) →
       DEQPBaseTest_run_command att =
         (5, some (.testRunError "Failed to connect to X server 5 times"
                                 "fail"))) ∧
    (∀ k, k < 5 →
       pyContains (att k) displayFailureSignature = false →
       (∀ j, j < k → pyContains (att j) displayFailureSignature = true) →
       DEQPBaseTest_run_command att = (k + 1, none)) := by
  refine ⟨?_, ?_, ?_⟩
  · simpa using runCommandLoop_count_le att 5 0
  · intro h
    simpa using runCommandLoop_all_fail att 5 0
      (fun i h1 h2 => h i (by omega))
  · intro k hk hfree hbefore
    simpa using runCommandLoop_first_success att 5 0 k hk
      (by simpa using hfree) (fun j hj => by simpa using hbefore j hj)

/-- C8 witness: with the signature on every attempt the command runs 5
times and the hard failure is raised; with a clean first attempt it runs
once and succeeds. -/
theorem deqp_display_retry_claim_witness :
    DEQPBaseTest_run_command (fun _ => displayFailureSignature) =
      (5, some (.testRunError "Failed to connect to X server 5 times"
                              "fail")) ∧
    DEQPBaseTest_run_command (fun _ => "") = (1, none) :=
  ⟨(deqp_display_retry_claim (fun _ => displayFailureSignature)).2.1
     (fun i _ => by rfl),
   (deqp_display_retry_claim (fun _ => "")).2.2 0 (by decide) (by rfl)
     (fun j hj => absurd hj (by omega))⟩

/-- C3: setting a key whose case-folded form already maps to a non-equal
test, with no `allow_reassignment` scope active, raises a fatal duplicate
error; setting the identical test under an existing key also raises; with
at least one scope active (the scopes nest through a counter) the set
overwrites without error; entering two scopes and leaving one still
permits overwriting; and once every scope has closed (enter then exit
from a clean state) duplicate insertion raises again. -/
theorem testdict_reassignment_claim (d : TestDict) (k : String)
    (v w : TestT) :
    (d.allowReassignment = 0 → d.container.lookup (pyLower k) = some w →
       w ≠ v → ∃ msg, d.setItem k v = .error (.fatal msg)) ∧
    (d.allowReassignment = 0 → d.container.lookup (pyLower k) = some v →
       ∃ msg, d.setItem k v = .error (.fatal msg)) ∧
    (0 < d.allowReassignment →
       ∃ d', d.setItem k v = .ok d' ∧ d'.getItem k = .ok v) ∧
    (∃ d', (d.enterAllowReassignment.enterAllowReassignment.exitAllowReassignment).setItem
        k v = .ok d' ∧ d'.getItem k = .ok v) ∧
    (d.allowReassignment = 0 → d.container.lookup (pyLower k) = some w →
       ∃ msg, (d.enterAllowReassignment.exitAllowReassignment).setItem k v =
         .error (.fatal msg)) := by
  refine ⟨?_, ?_, ?_, ?_, ?_⟩
  · intro h0 hlk _
    simp [TestDict.setItem, h0, hlk]
  · intro h0 hlk
    simp [TestDict.setItem, h0, hlk]
  · intro hpos
    have h0 : ¬ d.allowReassignment = 0 := by omega
    refine ⟨{ d with container := odAssign d.container (pyLower k) v },
            ?_, ?_⟩
    · simp [TestDict.setItem, h0]
    · simp [TestDict.getItem, odLookup_odAssign]
  · have h0 : ¬ (d.enterAllowReassignment.enterAllowReassignment.exitAllowReassignment).allowReassignment
        = 0 := by
      simp [TestDict.enterAllowReassignment, TestDict.exitAllowReassignment]
    refine ⟨{ d.enterAllowReassignment.enterAllowReassignment.exitAllowReassignment
                with container := odAssign d.container (pyLower k) v },
            ?_, ?_⟩
    · simp [TestDict.setItem, h0, TestDict.enterAllowReassignment,
            TestDict.exitAllowReassignment]
    · simp [TestDict.getItem, odLookup_odAssign]
  · intro h0 hlk
    simp [TestDict.setItem, TestDict.enterAllowReassignment,
          TestDict.exitAllowReassignment, h0, hlk]

/-- C3 witness: on a dictionary holding `a`, inserting `a` again (equal
or different test) fails while no scope is active, succeeds inside a
scope and after enter-enter-exit, and fails again after enter-exit. -/
theorem testdict_reassignment_claim_witness :
    (∃ msg, (TestDict.mk 0 [("a", ⟨["old"], true⟩)]).setItem "a"
        ⟨["new"], true⟩ = .error (.fatal msg)) ∧
    (∃ d', (TestDict.mk 1 [("a", ⟨["old"], true⟩)]).setItem "a"
        ⟨["new"], true⟩ = .ok d' ∧ d'.getItem "a" = .ok ⟨["new"], true⟩) := by
  have h := testdict_reassignment_claim
    (TestDict.mk 0 [("a", ⟨["old"], true⟩)]) "a" ⟨["new"], true⟩
    ⟨["old"], true⟩
  have h1 := testdict_reassignment_claim
    (TestDict.mk 1 [("a", ⟨["old"], true⟩)]) "a" ⟨["new"], true⟩
    ⟨["old"], true⟩
  exact ⟨h.1 (by rfl) (by rfl) (by decide), h1.2.2.1 (by decide)⟩

/-- C6: when the total count of surviving tests across all profiles after
filtering is zero, `Collection.run` aborts with the fatal
no-tests-scheduled error, and its event trace is empty: no pool was
created and nothing was written to the result sink. -/
theorem collection_run_zero_claim (profiles : List TestProfile)
    (ex : List String) (ps : List TestProfile)
    (hf : profiles.mapM (fun p => p.filterProfile ex) = .ok ps)
    (hz : (ps.map (fun p => p.testList.container.length)).sum = 0) :
    Collection_run profiles ex =
      ([], some (.fatal "There are no tests scheduled to run, aborting.")) ∧
    (∀ e ∈ (Collection_run profiles ex).1,
       (∀ pl, e ≠ Event.poolCreated pl) ∧ (∀ n, e ≠ Event.sinkWrite n)) := by
  have hrun : Collection_run profiles ex =
      ([], some (.fatal "There are no tests scheduled to run, aborting.")) := by
    unfold Collection_run
    rw [hf]
    simp [hz]
  refine ⟨hrun, ?_⟩
  rw [hrun]
  intro e he
  simp at he

/-- C6 witness: a run over one profile whose collection is empty aborts
with the fatal error and an empty trace. -/
theorem collection_run_zero_claim_witness :
    Collection_run [sampleEmptyProfile] [] =
      ([], some (.fatal "There are no tests scheduled to run, aborting.")) :=
  (collection_run_zero_claim [sampleEmptyProfile] [] [sampleEmptyProfile]
    (by rfl) (by rfl)).1

/-- C5: with a non-empty forced test list, `TestProfile.filter` first
restricts the collection to the forced list and reorders the survivors to
match it (missing entries tolerated), and only then applies the combined
predicate (all profile filters AND the built-in
include-regex/global-exclude/exclude-regex check): every surviving entry
is on the forced list, the surviving key sequence follows the forced
list's order, every survivor passes the combined predicate, and — because
filtering runs after the forced phase — a generic filter can still remove
an item that was on the forced list, as the concrete sample shows (`b` is
forced yet filtered out, and survivor order follows the forced list, not
insertion order). -/
theorem profile_forced_filter_claim (p : TestProfile) (ex : List String)
    (hforced : p.forcedTestList ≠ []) :
    (∃ p', p.filterProfile ex = .ok p' ∧
       (p'.testList.container.map Prod.fst).Sublist p.forcedTestList ∧
       (∀ item ∈ p'.testList.container, item.1 ∈ p.forcedTestList) ∧
       (∀ item ∈ p'.testList.container,
          checkAll (p.filters ++
            [fun path (_ : TestT) => testMatches p.options ex path]) item =
            true)) ∧
    (∃ pd, sampleForcedProfile.filterProfile [] = .ok pd ∧
       pd.testList.container = [("a", ⟨["bin/a"], true⟩)]) := by
  constructor
  · obtain ⟨r, hr, hsub⟩ := reorder_true_ok
      (p.testList.filterDict (fun i => p.forcedTestList.contains i.1))
      p.forcedTestList
    refine ⟨{ p with testList := r.filterDict (checkAll (p.filters ++
        [fun path (_ : TestT) => testMatches p.options ex path])) },
        ?_, ?_, ?_, ?_⟩
    · simp only [TestProfile.filterProfile, if_pos hforced, hr]
    · have hfs : ((r.container.filter (checkAll (p.filters ++
          [fun path (_ : TestT) => testMatches p.options ex path]))).map
            Prod.fst).Sublist (r.container.map Prod.fst) :=
        (List.filter_sublist _).map _
      exact hfs.trans hsub
    · intro item hit
      have hfs : ((r.container.filter (checkAll (p.filters ++
          [fun path (_ : TestT) => testMatches p.options ex path]))).map
            Prod.fst).Sublist (r.container.map Prod.fst) :=
        (List.filter_sublist _).map _
      exact (hfs.trans hsub).subset
        (List.mem_map_of_mem Prod.fst hit)
    · intro item hit
      exact (List.mem_filter.mp hit).2
  · exact ⟨_, rfl, rfl⟩

/-- C5 witness: the sample profile has a non-empty forced list, and its
filtered collection keeps only `a` — the forced entry `b` was removed by
the generic filter. -/
theorem profile_forced_filter_claim_witness :
    ∃ pd, sampleForcedProfile.filterProfile [] = .ok pd ∧
      pd.testList.container = [("a", ⟨["bin/a"], true⟩)] :=
  (profile_forced_filter_claim sampleForcedProfile [] (by decide)).2

end Piglit
